import Mathlib

/-!
Verification of pdf_footer_remover.py.

The script opens a PDF, and for each page adds a constant footer height to
the mediabox lower-left y-coordinate, leaving the other three coordinates
unchanged, then writes all pages to a new output PDF.  Missing input files
are detected explicitly (message, exit 1); every other exception inside
`remove_footer` is caught broadly (message, exit 1).  The `__main__` block
parses up to three command-line arguments, parsing the third with the
Python `float` builtin, and falls back to hardcoded defaults when no
arguments are given.

The embedding below models pages by their mediabox rectangles (rational
coordinates), the filesystem by an association list from path to file
content, and process termination by explicit outcome values.
-/

namespace PdfFooterRemover

/-- A page mediabox rectangle: two corner points in page-local 1/72-inch
units, named after the four variables read in remove_footer
(src/pdf_footer_remover.py lines 35-38). -/
structure Rect where
  lower_left_x : ℚ
  lower_left_y : ℚ
  upper_right_x : ℚ
  upper_right_y : ℚ
deriving DecidableEq, Repr

/-- The per-page loop body of remove_footer
(src/pdf_footer_remover.py lines 34-45): new_lower_y = lower_left_y +
footer_height_points; lower_left becomes (lower_left_x, new_lower_y) and
upper_right is reassigned unchanged. -/
def crop_page (footer_height_points : ℚ) (r : Rect) : Rect :=
  { lower_left_x := r.lower_left_x
    lower_left_y := r.lower_left_y + footer_height_points
    upper_right_x := r.upper_right_x
    upper_right_y := r.upper_right_y }

/-- Content found at a path: a parseable PDF (its list of page
rectangles), or a file PdfReader fails on. -/
inductive FileContent
  | pdf (pages : List Rect)
  | corrupt
deriving DecidableEq, Repr

/-- The filesystem: an association list from path to content; lookup
finds the first binding, writing prepends a binding. -/
abbrev FS := List (String × FileContent)

/-- The ambient state remove_footer runs in: the filesystem, plus which
paths can be opened for writing (open(output_pdf, wb) succeeds). -/
structure World where
  fs : FS
  writable : String → Bool

/-- How a call to remove_footer ends: the function returns True after
writing the output (success), prints a not-found message and calls
sys.exit(1) (errNotFound, lines 23-25), or the broad except clause prints
a message and calls sys.exit(1) (errCaught, lines 61-63). -/
inductive Outcome
  | success (pages : List Rect)
  | errNotFound
  | errCaught
deriving DecidableEq, Repr

/-- Process exit status once remove_footer has ended this way: both error
arms call sys.exit(1); after a successful return the script runs to the
end of the process, which exits 0. -/
def Outcome.exitCode : Outcome → ℕ
  | success _ => 0
  | errNotFound => 1
  | errCaught => 1

/-- Result of a remove_footer call: its outcome together with the
filesystem afterwards. -/
structure RunResult where
  outcome : Outcome
  fs : FS
deriving DecidableEq, Repr

/-- remove_footer (src/pdf_footer_remover.py lines 11-63): check the
input path exists (else exit 1), read the pages, map the per-page crop
over them in order, open the output for writing (an OSError there is
caught by the broad except clause, as is a parse failure), and write the
new document.  On every error path nothing has been written. -/
def remove_footer (w : World) (input_pdf output_pdf : String)
    (footer_height_points : ℚ) : RunResult :=
  match w.fs.lookup input_pdf with
  | none => ⟨Outcome.errNotFound, w.fs⟩
  | some FileContent.corrupt => ⟨Outcome.errCaught, w.fs⟩
  | some (FileContent.pdf pages) =>
    let new_pages := pages.map (crop_page footer_height_points)
    if w.writable output_pdf then
      ⟨Outcome.success new_pages, (output_pdf, FileContent.pdf new_pages) :: w.fs⟩
    else
      ⟨Outcome.errCaught, w.fs⟩

/-- Digit-string value, or none when the list is empty or holds a
non-digit character. -/
def decDigits (l : List Char) : Option ℕ :=
  if !l.isEmpty && l.all Char.isDigit then
    some (l.foldl (fun n c => n * 10 + (c.toNat - 48)) 0)
  else none

/-- Split a character list at its first dot: the part before it, and
(when a dot occurs) the part after it. -/
def splitAtDot : List Char → List Char × Option (List Char)
  | [] => ([], none)
  | c :: rest =>
    if c = '.' then ([], some rest)
    else
      let p := splitAtDot rest
      (c :: p.1, p.2)

/-- Model of the Python float builtin as used on sys.argv[3] (line 91),
restricted to simple signed decimal literals (optional leading minus,
digits, optional single dot with digits after it); on any other string
the builtin raises ValueError, modelled as none. -/
def pythonFloat (s : String) : Option ℚ :=
  let l := s.toList
  let sb : ℚ × List Char :=
    match l with
    | '-' :: rest => (-1, rest)
    | _ => (1, l)
  match splitAtDot sb.2 with
  | (w, none) => (decDigits w).map (fun n => sb.1 * n)
  | (w, some f) =>
    if f.contains '.' then none
    else
      match decDigits w, decDigits f with
      | some a, some b => some (sb.1 * ((a : ℚ) + (b : ℚ) / (10 : ℚ) ^ f.length))
      | _, _ => none

/-- How the whole process ends: normal end of script (exit status 0); a
message printed by the script itself followed by sys.exit(1); or an
exception escaping to the interpreter, which prints a traceback and
exits with status 1. -/
inductive ProcResult
  | ok
  | handledError
  | uncaughtException
deriving DecidableEq, Repr

/-- Exit status of the process for each way it ends; CPython exits with
status 1 on an unhandled exception. -/
def ProcResult.exitStatus : ProcResult → ℕ
  | ok => 0
  | handledError => 1
  | uncaughtException => 1

/-- Lift a remove_footer outcome to the process result: both sys.exit(1)
arms are message-then-exit; a successful return lets the script finish. -/
def procOf : Outcome → ProcResult
  | Outcome.success _ => ProcResult.ok
  | Outcome.errNotFound => ProcResult.handledError
  | Outcome.errCaught => ProcResult.handledError

/-- Package a remove_footer result as the final process state. -/
def finish (r : RunResult) : ProcResult × FS :=
  (procOf r.outcome, r.fs)

/-- main (src/pdf_footer_remover.py lines 66-83): prints a banner and
calls remove_footer with the hardcoded defaults input.pdf, output.pdf
and footer height 50. -/
def main (w : World) : RunResult :=
  remove_footer w "input.pdf" "output.pdf" 50

/-- The module entry block (src/pdf_footer_remover.py lines 86-95),
taking argv = sys.argv[1:]: with no arguments it calls main(); with at
least one it takes the input path, the output path (defaulting to
output.pdf), and when a third argument is present parses it with
float(...) BEFORE remove_footer is called — a parse failure there is an
uncaught ValueError. -/
def run_script (w : World) (argv : List String) : ProcResult × FS :=
  match argv with
  | [] => finish (main w)
  | input_pdf :: rest =>
    let output_pdf :=
      match rest with
      | o :: _ => o
      | [] => "output.pdf"
    match rest with
    | _ :: hs :: _ =>
      match pythonFloat hs with
      | some fh => finish (remove_footer w input_pdf output_pdf fh)
      | none => (ProcResult.uncaughtException, w.fs)
    | _ => finish (remove_footer w input_pdf output_pdf 50)

/-- A world holding the single-page 612x792 document scenario at
input.pdf, with every path writable. -/
def exampleWorld : World :=
  ⟨[("input.pdf", FileContent.pdf [Rect.mk 0 0 612 792])], fun _ => true⟩

/-- A world whose only file, bad.pdf, is unparseable. -/
def corruptWorld : World :=
  ⟨[("bad.pdf", FileContent.corrupt)], fun _ => true⟩

/-- Helper: on an existing, parseable input and a writable output,
remove_footer succeeds with the cropped pages and writes them. -/
theorem remove_footer_success (w : World) (inP outP : String) (fh : ℚ)
    (pages : List Rect)
    (hin : w.fs.lookup inP = some (FileContent.pdf pages))
    (hw : w.writable outP = true) :
    remove_footer w inP outP fh =
      ⟨Outcome.success (pages.map (crop_page fh)),
       (outP, FileContent.pdf (pages.map (crop_page fh))) :: w.fs⟩ := by
  simp [remove_footer, hin, hw]

/-- Claim C1: for every page, remove_footer keeps lower-left x and both
upper-right coordinates and adds the footer height to lower-left y; a
612x792 page with footer height 50 becomes lower-left (0,50),
upper-right (612,792). -/
theorem remove_footer_rect_coords (w : World) (inP outP : String) (fh : ℚ)
    (pages : List Rect)
    (hin : w.fs.lookup inP = some (FileContent.pdf pages))
    (hw : w.writable outP = true) :
    (remove_footer w inP outP fh).outcome
        = Outcome.success (pages.map (crop_page fh)) ∧
    (∀ r : Rect,
      (crop_page fh r).lower_left_x = r.lower_left_x ∧
      (crop_page fh r).upper_right_x = r.upper_right_x ∧
      (crop_page fh r).upper_right_y = r.upper_right_y ∧
      (crop_page fh r).lower_left_y = r.lower_left_y + fh) ∧
    crop_page 50 (Rect.mk 0 0 612 792) = Rect.mk 0 50 612 792 := by
  refine ⟨?_, ?_, ?_⟩
  · rw [remove_footer_success w inP outP fh pages hin hw]
  · intro r
    exact ⟨rfl, rfl, rfl, rfl⟩
  · simp [crop_page]

/-- Witness for C1 at the concrete 612x792 scenario. -/
theorem remove_footer_rect_coords_witness :
    (remove_footer exampleWorld "input.pdf" "output.pdf" 50).outcome
        = Outcome.success ([Rect.mk 0 0 612 792].map (crop_page 50)) ∧
    (∀ r : Rect,
      (crop_page 50 r).lower_left_x = r.lower_left_x ∧
      (crop_page 50 r).upper_right_x = r.upper_right_x ∧
      (crop_page 50 r).upper_right_y = r.upper_right_y ∧
      (crop_page 50 r).lower_left_y = r.lower_left_y + 50) ∧
    crop_page 50 (Rect.mk 0 0 612 792) = Rect.mk 0 50 612 792 :=
  remove_footer_rect_coords exampleWorld "input.pdf" "output.pdf" 50
    [Rect.mk 0 0 612 792] (by decide) rfl

/-- Claim C2: for a valid input document and a footer height below every
page height, the output document has the same number of pages as the
input, in the same document order (the writer receives exactly the
cropped pages, input order preserved by the map). -/
theorem remove_footer_page_count (w : World) (inP outP : String) (fh : ℚ)
    (pages : List Rect)
    (hin : w.fs.lookup inP = some (FileContent.pdf pages))
    (hw : w.writable outP = true)
    (_hfh : ∀ r ∈ pages, fh < r.upper_right_y - r.lower_left_y) :
    ∃ out : List Rect,
      (remove_footer w inP outP fh).outcome = Outcome.success out ∧
      out.length = pages.length ∧
      out = pages.map (crop_page fh) := by
  refine ⟨pages.map (crop_page fh), ?_, by simp, rfl⟩
  rw [remove_footer_success w inP outP fh pages hin hw]

/-- Witness for C2 on the single 612x792 page with footer height 50. -/
theorem remove_footer_page_count_witness :
    ∃ out : List Rect,
      (remove_footer exampleWorld "input.pdf" "output.pdf" 50).outcome
          = Outcome.success out ∧
      out.length = [Rect.mk 0 0 612 792].length ∧
      out = [Rect.mk 0 0 612 792].map (crop_page 50) :=
  remove_footer_page_count exampleWorld "input.pdf" "output.pdf" 50
    [Rect.mk 0 0 612 792] (by decide) rfl
    (by
      intro r hr
      rw [List.mem_singleton] at hr
      subst hr
      show (50 : ℚ) < 792 - 0
      norm_num)

/-- Claim C3: the crop is not idempotent: applying it twice with the same
height adds twice the height to the lower-left y-coordinate, and for any
nonzero height a single application is not a fixed point. -/
theorem crop_page_not_idempotent (r : Rect) (fh : ℚ) :
    (crop_page fh (crop_page fh r)).lower_left_y
        = r.lower_left_y + 2 * fh ∧
    (fh ≠ 0 → crop_page fh r ≠ r) := by
  constructor
  · simp [crop_page]
    ring
  · intro h0 heq
    have hy := congrArg Rect.lower_left_y heq
    simp [crop_page] at hy
    exact h0 hy

/-- Witness for C3 at the 612x792 page with the default height 50. -/
theorem crop_page_not_idempotent_witness :
    (crop_page 50 (crop_page 50 (Rect.mk 0 0 612 792))).lower_left_y
        = 0 + 2 * 50 ∧
    crop_page 50 (Rect.mk 0 0 612 792) ≠ Rect.mk 0 0 612 792 :=
  ⟨(crop_page_not_idempotent (Rect.mk 0 0 612 792) 50).1,
   (crop_page_not_idempotent (Rect.mk 0 0 612 792) 50).2 (by norm_num)⟩

/-- Claim C4: when the footer height exceeds a page's height the addition
is still performed unconditionally — remove_footer succeeds without any
validation — and the page's rectangle comes out inverted, with lower-left
y strictly above upper-right y. -/
theorem oversized_footer_not_rejected (w : World) (inP outP : String)
    (fh : ℚ) (pages : List Rect) (r : Rect)
    (hin : w.fs.lookup inP = some (FileContent.pdf pages))
    (hw : w.writable outP = true)
    (hbig : r.upper_right_y - r.lower_left_y < fh) :
    (crop_page fh r).upper_right_y < (crop_page fh r).lower_left_y ∧
    (remove_footer w inP outP fh).outcome
        = Outcome.success (pages.map (crop_page fh)) := by
  constructor
  · simp only [crop_page]
    linarith
  · rw [remove_footer_success w inP outP fh pages hin hw]

/-- Witness for C4: footer height 1000 on the 612x792 page. -/
theorem oversized_footer_not_rejected_witness :
    (crop_page 1000 (Rect.mk 0 0 612 792)).upper_right_y
        < (crop_page 1000 (Rect.mk 0 0 612 792)).lower_left_y ∧
    (remove_footer exampleWorld "input.pdf" "output.pdf" 1000).outcome
        = Outcome.success ([Rect.mk 0 0 612 792].map (crop_page 1000)) :=
  oversized_footer_not_rejected exampleWorld "input.pdf" "output.pdf" 1000
    [Rect.mk 0 0 612 792] (Rect.mk 0 0 612 792) (by decide) rfl
    (by
      show (792 : ℚ) - 0 < 1000
      norm_num)

/-- Claim C5: on a missing input path remove_footer reports the error and
exits with status 1 before anything has been written: the filesystem is
unchanged, so in particular no output file is created. -/
theorem missing_input_exits_one (w : World) (inP outP : String) (fh : ℚ)
    (hin : w.fs.lookup inP = none) :
    remove_footer w inP outP fh = ⟨Outcome.errNotFound, w.fs⟩ ∧
    Outcome.exitCode (remove_footer w inP outP fh).outcome = 1 ∧
    (remove_footer w inP outP fh).fs.lookup outP = w.fs.lookup outP := by
  have h1 : remove_footer w inP outP fh = ⟨Outcome.errNotFound, w.fs⟩ := by
    simp [remove_footer, hin]
  refine ⟨h1, ?_, ?_⟩
  · rw [h1]
    rfl
  · rw [h1]

/-- Witness for C5: the empty filesystem has no input.pdf, remove_footer
exits 1 and output.pdf still does not exist afterwards. -/
theorem missing_input_exits_one_witness :
    remove_footer (World.mk [] (fun _ => true)) "input.pdf" "output.pdf" 50
        = ⟨Outcome.errNotFound, []⟩ ∧
    Outcome.exitCode
        (remove_footer (World.mk [] (fun _ => true)) "input.pdf"
          "output.pdf" 50).outcome = 1 ∧
    (remove_footer (World.mk [] (fun _ => true)) "input.pdf" "output.pdf"
        50).fs.lookup "output.pdf"
      = (List.nil : FS).lookup "output.pdf" :=
  missing_input_exits_one (World.mk [] (fun _ => true)) "input.pdf"
    "output.pdf" 50 rfl

/-- A world holding a zero-page document at empty.pdf, with every path
writable. -/
def emptyDocWorld : World :=
  ⟨[("empty.pdf", FileContent.pdf [])], fun _ => true⟩

/-- Helper: every run of remove_footer either succeeds and writes the
output, or ends on one of the two error arms with the filesystem
untouched. -/
theorem remove_footer_cases (w : World) (inP outP : String) (fh : ℚ) :
    (∃ out : List Rect, remove_footer w inP outP fh =
        ⟨Outcome.success out, (outP, FileContent.pdf out) :: w.fs⟩) ∨
    remove_footer w inP outP fh = ⟨Outcome.errNotFound, w.fs⟩ ∨
    remove_footer w inP outP fh = ⟨Outcome.errCaught, w.fs⟩ := by
  cases hl : w.fs.lookup inP with
  | none =>
    right
    left
    simp [remove_footer, hl]
  | some c =>
    cases c with
    | corrupt =>
      right
      right
      simp [remove_footer, hl]
    | pdf pages =>
      cases hw : w.writable outP with
      | true =>
        left
        exact ⟨pages.map (crop_page fh), by simp [remove_footer, hl, hw]⟩
      | false =>
        right
        right
        simp [remove_footer, hl, hw]

/-- Claim C6: every exception inside remove_footer aborts the whole
operation with exit status 1 and discards partial work (the filesystem
is exactly as before the call); a successful run exits with status 0. -/
theorem any_exception_aborts (w : World) (inP outP : String) (fh : ℚ) :
    (∀ out : List Rect,
      (remove_footer w inP outP fh).outcome = Outcome.success out →
        Outcome.exitCode (remove_footer w inP outP fh).outcome = 0) ∧
    ((remove_footer w inP outP fh).outcome = Outcome.errNotFound ∨
     (remove_footer w inP outP fh).outcome = Outcome.errCaught →
        Outcome.exitCode (remove_footer w inP outP fh).outcome = 1 ∧
        (remove_footer w inP outP fh).fs = w.fs) := by
  rcases remove_footer_cases w inP outP fh with ⟨out, hout⟩ | h | h
  · constructor
    · intro o ho
      rw [ho]
      rfl
    · intro hor
      rw [hout] at hor
      rcases hor with h | h <;> exact Outcome.noConfusion h
  · constructor
    · intro o ho
      rw [h] at ho
      exact Outcome.noConfusion ho
    · intro _
      rw [h]
      exact ⟨rfl, rfl⟩
  · constructor
    · intro o ho
      rw [h] at ho
      exact Outcome.noConfusion ho
    · intro _
      rw [h]
      exact ⟨rfl, rfl⟩

/-- Witness for C6: the corrupt document aborts with exit status 1 and
leaves the filesystem untouched. -/
theorem any_exception_aborts_witness :
    Outcome.exitCode
        (remove_footer corruptWorld "bad.pdf" "output.pdf" 50).outcome = 1 ∧
    (remove_footer corruptWorld "bad.pdf" "output.pdf" 50).fs
        = corruptWorld.fs :=
  (any_exception_aborts corruptWorld "bad.pdf" "output.pdf" 50).2
    (Or.inr rfl)

/-- Claim C7: on a zero-page input document remove_footer completes
without error (exit status 0) and creates an output document with zero
pages. -/
theorem zero_page_document (w : World) (inP outP : String) (fh : ℚ)
    (hin : w.fs.lookup inP = some (FileContent.pdf []))
    (hw : w.writable outP = true) :
    (remove_footer w inP outP fh).outcome = Outcome.success [] ∧
    (remove_footer w inP outP fh).fs.lookup outP
        = some (FileContent.pdf []) ∧
    Outcome.exitCode (remove_footer w inP outP fh).outcome = 0 := by
  have h := remove_footer_success w inP outP fh [] hin hw
  rw [h]
  refine ⟨rfl, ?_, rfl⟩
  simp [List.lookup]

/-- Witness for C7 on the zero-page document at empty.pdf. -/
theorem zero_page_document_witness :
    (remove_footer emptyDocWorld "empty.pdf" "out.pdf" 50).outcome
        = Outcome.success [] ∧
    (remove_footer emptyDocWorld "empty.pdf" "out.pdf" 50).fs.lookup
        "out.pdf" = some (FileContent.pdf []) ∧
    Outcome.exitCode
        (remove_footer emptyDocWorld "empty.pdf" "out.pdf" 50).outcome
      = 0 :=
  zero_page_document emptyDocWorld "empty.pdf" "out.pdf" 50 (by decide) rfl

/-- Counterexample to claim C8: a malformed numeric footer-height
argument does not go through the broadly-caught message-printing path:
float(sys.argv[3]) runs at module level before remove_footer, so the
ValueError escapes as an uncaught exception, unlike the handled paths. -/
theorem malformed_height_uncaught_cex :
    (run_script corruptWorld ["bad.pdf", "output.pdf", "abc"]).1
        = ProcResult.uncaughtException ∧
    ProcResult.uncaughtException ≠ ProcResult.handledError :=
  ⟨rfl, by decide⟩

/-- Claim C8 as amended: a corrupt PDF and an unwritable output path are
both caught broadly inside remove_footer (message printed, sys.exit(1)),
with no distinction between them, but a malformed numeric footer-height
argument raises before remove_footer is entered and escapes uncaught;
all three still terminate the process with exit status 1. -/
theorem failure_modes_distinguished (w : World) (inP outP hs : String)
    (fh : ℚ) (hparse : pythonFloat hs = some fh) :
    (w.fs.lookup inP = some FileContent.corrupt →
        (run_script w [inP, outP, hs]).1 = ProcResult.handledError) ∧
    (∀ pages : List Rect,
        w.fs.lookup inP = some (FileContent.pdf pages) →
        w.writable outP = false →
        (run_script w [inP, outP, hs]).1 = ProcResult.handledError) ∧
    (∀ s : String, pythonFloat s = none →
        (run_script w [inP, outP, s]).1 = ProcResult.uncaughtException) ∧
    ProcResult.exitStatus ProcResult.handledError = 1 ∧
    ProcResult.exitStatus ProcResult.uncaughtException = 1 := by
  refine ⟨?_, ?_, ?_, rfl, rfl⟩
  · intro hc
    simp [run_script, hparse, remove_footer, hc, finish, procOf]
  · intro pages hp hw
    simp [run_script, hparse, remove_footer, hp, hw, finish, procOf]
  · intro s hs0
    simp [run_script, hs0]

/-- Witness for C8 (amended): on the corrupt bad.pdf, argument list with
height 50 ends handled; with height abc it ends as an uncaught
exception. -/
theorem failure_modes_distinguished_witness :
    (run_script corruptWorld ["bad.pdf", "output.pdf", "50"]).1
        = ProcResult.handledError ∧
    (run_script corruptWorld ["bad.pdf", "output.pdf", "abc"]).1
        = ProcResult.uncaughtException :=
  ⟨(failure_modes_distinguished corruptWorld "bad.pdf" "output.pdf" "50" 50
      (by
        show some ((1 : ℚ) * ((50 : ℕ) : ℚ)) = some (50 : ℚ)
        norm_num)).1 (by decide),
   (failure_modes_distinguished corruptWorld "bad.pdf" "output.pdf" "50" 50
      (by
        show some ((1 : ℚ) * ((50 : ℕ) : ℚ)) = some (50 : ℚ)
        norm_num)).2.2.1 "abc" rfl⟩

/-- Claim C9: with zero command-line arguments the script runs
remove_footer with the hardcoded defaults input.pdf, output.pdf and
footer height 50. -/
theorem zero_args_use_defaults (w : World) :
    run_script w [] = finish (remove_footer w "input.pdf" "output.pdf" 50) :=
  rfl

/-- Claim C10: a negative footer height is accepted without any check:
remove_footer succeeds, the same unconditional addition strictly lowers
each page's lower-left y-coordinate, leaving the other three coordinates
unchanged (the visible rectangle grows downward instead of being
cropped). -/
theorem negative_height_enlarges (w : World) (inP outP : String) (fh : ℚ)
    (pages : List Rect) (r : Rect)
    (hneg : fh < 0)
    (hin : w.fs.lookup inP = some (FileContent.pdf pages))
    (hw : w.writable outP = true) :
    (remove_footer w inP outP fh).outcome
        = Outcome.success (pages.map (crop_page fh)) ∧
    (crop_page fh r).lower_left_y < r.lower_left_y ∧
    (crop_page fh r).lower_left_x = r.lower_left_x ∧
    (crop_page fh r).upper_right_x = r.upper_right_x ∧
    (crop_page fh r).upper_right_y = r.upper_right_y := by
  refine ⟨?_, ?_, rfl, rfl, rfl⟩
  · rw [remove_footer_success w inP outP fh pages hin hw]
  · simp only [crop_page]
    linarith

/-- Witness for C10 at footer height -10 on the 612x792 page. -/
theorem negative_height_enlarges_witness :
    (remove_footer exampleWorld "input.pdf" "output.pdf" (-10)).outcome
        = Outcome.success ([Rect.mk 0 0 612 792].map (crop_page (-10))) ∧
    (crop_page (-10) (Rect.mk 0 0 612 792)).lower_left_y
        < (Rect.mk 0 0 612 792).lower_left_y ∧
    (crop_page (-10) (Rect.mk 0 0 612 792)).lower_left_x
        = (Rect.mk 0 0 612 792).lower_left_x ∧
    (crop_page (-10) (Rect.mk 0 0 612 792)).upper_right_x
        = (Rect.mk 0 0 612 792).upper_right_x ∧
    (crop_page (-10) (Rect.mk 0 0 612 792)).upper_right_y
        = (Rect.mk 0 0 612 792).upper_right_y :=
  negative_height_enlarges exampleWorld "input.pdf" "output.pdf" (-10)
    [Rect.mk 0 0 612 792] (Rect.mk 0 0 612 792) (by norm_num) (by decide)
    rfl

end PdfFooterRemover
